import Mathlib

/-!
Verification development for the webhdfs client (`src/lib/webhdfs.js`).

The file shallowly embeds the parts of the client that the streaming-transfer
and error-handling claims are about:

* the status-code classifiers `_isSuccess`, `_isRedirect`, `_isError`;
* the remote-exception parser `_parseError`;
* the metadata round-trip helper `_sendRequest` and the `stat` / `exists`
  operations built on it;
* the `concat` input validation;
* the two transfer sessions `createWriteStream` (upload) and
  `createReadStream` (download), modelled as pure functions from a
  *script* — the behaviour of the HTTP transport for the (at most two)
  requests a session issues — to the ordered list of events the session
  emits to its consumer, together with the list of second-phase requests
  it issues.

The HTTP transport is modelled per the specification's stated assumption:
it supplies request/response primitives with streaming bodies, header
access, and does *not* follow redirects on its own.  For one request the
transport either fails (transport error, no response) or delivers a
response (status code and `location` header), followed by the body chunks
in order, followed by connection completion (the `complete` event).
JSON decoding is external to the client, so a string body or chunk is
carried together with the result of `JSON.parse` applied to it.
-/

namespace WebHDFS

/-- The value of an own `RemoteException` property, abstracted to what
`_parseError` inspects: its truthiness and its `message` field.
`falsyExc` is a falsy value (e.g. `"RemoteException": null`);
`excWithMsg m` is a truthy value whose `message` field is the string `m`;
`excNoMsg` is a truthy value with no `message` field (then
`new Error(undefined)` yields an Error whose message is the empty
string). -/
inductive RemoteExc where
  | falsyExc : RemoteExc
  | excWithMsg (message : String) : RemoteExc
  | excNoMsg : RemoteExc
deriving DecidableEq, Repr

/-- A decoded JSON value, abstracted to exactly the properties the client
inspects: truthiness, presence of an own `RemoteException` property (with
the abstraction of its value), and presence of an own `FileStatus`
property (with the truthiness of its value).  `falsyVal` stands for any
falsy decoded value (`null`, `false`, `0`, `""`); `objVal` stands for any
truthy value, whose other own properties the client never reads. -/
inductive JsVal where
  | falsyVal : JsVal
  | objVal (remoteException : Option RemoteExc) (fileStatus : Option Bool) : JsVal
deriving DecidableEq, Repr

/-- A response body as the client receives it from the `request` library:
either a string (carried together with the result of `JSON.parse` on it,
`none` when parsing throws), an already-decoded value (the library was
invoked with `json: true` and the body parsed), or no body at all. -/
inductive RespBody where
  | strBody (parse : Option JsVal) : RespBody
  | objBody (v : JsVal) : RespBody
  | noBody : RespBody
deriving DecidableEq, Repr

/-- An HTTP response, abstracted to the fields the client inspects:
`res.statusCode` and `res.headers.location` (`none` when the header is
absent). -/
structure Response where
  statusCode : Nat
  location : Option String
deriving DecidableEq, Repr

/-- `_isRedirect` (webhdfs.js:112):
`[301, 307].indexOf(res.statusCode) !== -1 && res.headers.hasOwnProperty('location')`. -/
def _isRedirect (res : Response) : Bool :=
  (res.statusCode == 301 || res.statusCode == 307) && res.location.isSome

/-- `_isSuccess` (webhdfs.js:126): `[200, 201].indexOf(res.statusCode) !== -1`. -/
def _isSuccess (res : Response) : Bool :=
  res.statusCode == 200 || res.statusCode == 201

/-- `_isError` (webhdfs.js:139):
`[400, 401, 402, 403, 404, 500].indexOf(res.statusCode) !== -1`. -/
def _isError (res : Response) : Bool :=
  res.statusCode == 400 || res.statusCode == 401 || res.statusCode == 402 ||
  res.statusCode == 403 || res.statusCode == 404 || res.statusCode == 500

/-- The decoded view of a body, as `_parseError` sees it after its
string-handling step: a string body is replaced by its `JSON.parse`
result (`null`, i.e. `none`, when parsing throws). -/
def decodeBody : RespBody → Option JsVal
  | RespBody.strBody p => p
  | RespBody.objBody v => some v
  | RespBody.noBody => none

/-- `_parseError` (webhdfs.js:79).  Returns the message of the produced
`Error`, or `none` when the function returns `null`.  After decoding:
a truthy body with an own `RemoteException` property assigns that value
to `error`, so a truthy value with a `message` yields `Error(message)`,
a truthy value without one yields `Error(undefined)` (empty message),
and a falsy value makes the final `error ? new Error(...) : null` return
`null` — even when `strict` is false.  When the property is absent (or
the decoded body is falsy), strict mode produces no error and non-strict
mode produces a generic `"Unknown error"`. -/
def _parseError (body : RespBody) (strict : Bool) : Option String :=
  match decodeBody body with
  | some (JsVal.objVal (some e) _) =>
      match e with
      | RemoteExc.falsyExc => none
      | RemoteExc.excWithMsg m => some m
      | RemoteExc.excNoMsg => some ""
  | _ => if strict then none else some "Unknown error"

/-- A body chunk delivered by a `data` event; `parsed` is the result of
`JSON.parse` applied to `chunk.toString()` (`none` when parsing throws). -/
structure Chunk where
  parsed : Option JsVal
deriving DecidableEq, Repr

/-- The payload of the `error` event produced from one chunk on its own,
as the download error path does: `self._parseError(data.toString())`
(non-strict; `none` is the `null` the source emits when the chunk's
`RemoteException` property is present but falsy). -/
def chunkErrMsg (c : Chunk) : Option String :=
  _parseError (RespBody.strBody c.parsed) false

/-- An event observed by the consumer of a transfer session.  An `error`
event's payload is the produced Error's message, or `none` where the
source emits a `null` error value. -/
inductive Event where
  | data (c : Chunk) : Event
  | error (payload : Option String) : Event
  | finish (payload : Option String) : Event
deriving DecidableEq, Repr

def isDataEvt : Event → Bool
  | Event.data _ => true
  | _ => false

def isErrorEvt : Event → Bool
  | Event.error _ => true
  | _ => false

def isFinishEvt : Event → Bool
  | Event.finish _ => true
  | _ => false

/-- The chunks delivered by the `data` events of a trace, in order. -/
def dataEvents (l : List Event) : List Chunk :=
  l.filterMap fun e =>
    match e with
    | Event.data c => some c
    | _ => none

/-- The payloads carried by the `error` events of a trace, in order
(each the Error's message, or `none` for an emitted `null`). -/
def errorEvents (l : List Event) : List (Option String) :=
  l.filterMap fun e =>
    match e with
    | Event.error m => some m
    | _ => none

/-- Holds when no event of the trace is a `data` event. -/
def noneData (l : List Event) : Bool := l.all fun e => !isDataEvt e

/-- Holds when no event of the trace is a `data` or `finish` event. -/
def noneDataFinish (l : List Event) : Bool :=
  l.all fun e => !isDataEvt e && !isFinishEvt e

/-- Holds when no `data` event occurs after an `error` event. -/
def noDataAfterError : List Event → Bool
  | [] => true
  | e :: rest => if isErrorEvt e then noneData rest else noDataAfterError rest

/-- Holds when no `data` or `finish` event occurs after an `error` event
(the property claimed by the exactly-once-terminal sentence). -/
def noDataOrFinishAfterError : List Event → Bool
  | [] => true
  | e :: rest =>
      if isErrorEvt e then noneDataFinish rest else noDataOrFinishAfterError rest

/-- A request issued by a session: its target URL and HTTP method. -/
structure ReqRecord where
  url : String
  method : String
deriving DecidableEq, Repr

/-! ### Upload session: `createWriteStream` (webhdfs.js:507) -/

/-- Transport outcome of the first (locate) request of an upload: the
callback of `request(params, cb)` is invoked either with a transport
error and no response, or with the complete response and its body. -/
inductive FirstResult where
  | transportErr (msg : String) : FirstResult
  | resp (res : Response) (body : RespBody) : FirstResult
deriving DecidableEq, Repr

/-- Transport outcome of the second (data) request of an upload. -/
inductive SecondResult where
  | transportErr (msg : String) : SecondResult
  | resp (res : Response) (body : RespBody) : SecondResult
deriving DecidableEq, Repr

/-- The transport's behaviour for one upload session: the outcome of the
first request, and the outcome the second request would have (consumed
only when the first response is redirect-class, since only then is a
second request issued). -/
structure WriteScript where
  first : FirstResult
  second : SecondResult
deriving DecidableEq, Repr

/-- Whether the script's first request yields a redirect-class response. -/
def WriteScript.firstRedirect (ws : WriteScript) : Bool :=
  match ws.first with
  | FirstResult.transportErr _ => false
  | FirstResult.resp res _ => _isRedirect res

/-- The `emitError` helper of `createWriteStream` (webhdfs.js:518):
unless `errorEmitted` is already set it emits `error` followed by
`finish`, and in every case it latches the flag.  Returns the emitted
events and the new flag.  The payload is `err || self._parseError(body)`
at the call sites, which is `none` (a `null` error value) when there was
no transport error and `_parseError` produced no Error. -/
def emitError (errorEmitted : Bool) (payload : Option String) : List Event × Bool :=
  (if errorEmitted then [] else [Event.error payload, Event.finish none], true)

/-- Result of running an upload session: the events emitted on the
returned stream, in order, and the second-phase requests issued. -/
structure WriteOutcome where
  events : List Event
  secondRequests : List ReqRecord
deriving DecidableEq, Repr

/-- Embedding of `createWriteStream` (webhdfs.js:507-594).

`endpointUrl` abstracts the URL built by `_getOperationEndpoint` for the
CREATE/APPEND operation; `append` selects the HTTP method
(`append ? 'POST' : 'PUT'`).  The `onPipe` wiring (pausing the piped
source, suppressing auto-resume via `canResume`, unpiping and ending the
first request) controls flow of the caller's byte source only; it emits
no session event and issues no request, so it does not appear in the
outcome.

First callback (webhdfs.js:544-571): if a response arrived and it is
redirect-class, a second request with the same parameters but
`url: res.headers.location` is issued and the held source is piped into
it; afterwards the `err || _isError(res)` check is false for a redirect
(the redirect and error status sets are disjoint and `err` is only set
when no response arrived), so nothing further is emitted by the first
callback.  On transport error or a remote-error status, `emitError` runs
with the flag still unset.  On any other response nothing is emitted.

Second callback (webhdfs.js:547-559): transport error or remote-error
status runs `emitError` (still-unset flag: the first callback's error
branch is unreachable in the redirect case); otherwise `finish` is
emitted, carrying the second response's `location` header when present. -/
def createWriteStream (_endpointUrl : String) (append : Bool)
    (script : WriteScript) : WriteOutcome :=
  match script.first with
  | FirstResult.transportErr msg =>
      { events := (emitError false (some msg)).1, secondRequests := [] }
  | FirstResult.resp res body =>
      if _isRedirect res then
        { events :=
            match script.second with
            | SecondResult.transportErr msg => (emitError false (some msg)).1
            | SecondResult.resp res2 body2 =>
                if _isError res2 then
                  (emitError false (_parseError body2 false)).1
                else if res2.location.isSome then
                  [Event.finish res2.location]
                else
                  [Event.finish none],
          secondRequests :=
            [{ url := res.location.getD "",
               method := if append then "POST" else "PUT" }] }
      else if _isError res then
        { events := (emitError false (_parseError body false)).1,
          secondRequests := [] }
      else
        { events := [], secondRequests := [] }

/-! ### Download session: `createReadStream` (webhdfs.js:626) -/

/-- Transport outcome of one GET in a download: either a transport error
(the request stream emits `error` and never completes), or a response
followed by its body chunks in order and then connection completion. -/
inductive GetResult where
  | transportErr (msg : String) : GetResult
  | stream (res : Response) (chunks : List Chunk) : GetResult
deriving DecidableEq, Repr

/-- The transport's behaviour for one download session: the outcome of
the first GET, and the outcome the second GET would have (consumed only
when the first response is redirect-class). -/
structure ReadScript where
  first : GetResult
  second : GetResult
deriving DecidableEq, Repr

/-- Whether the script's first request yields a redirect-class response. -/
def ReadScript.firstRedirect (rs : ReadScript) : Bool :=
  match rs.first with
  | GetResult.transportErr _ => false
  | GetResult.stream res _ => _isRedirect res

/-- Events produced by the download error path: the response handler has
removed every `data` listener and installed one that parses each chunk
on its own (non-strict) and emits the result as an `error` event
(webhdfs.js:651-655 and 672-677).  One `error` event per chunk. -/
def perChunkErrors (cs : List Chunk) : List Event :=
  cs.map fun c => Event.error (chunkErrMsg c)

/-- Events produced by relaying body chunks to the consumer: each chunk
is delivered as its own `data` event as it arrives. -/
def relayData (cs : List Chunk) : List Event := cs.map Event.data

/-- Result of running a download session: the events the consumer
observes on the returned stream, in order, and the second-phase requests
issued. -/
structure ReadOutcome where
  events : List Event
  secondRequests : List ReqRecord
deriving DecidableEq, Repr

/-- Embedding of `createReadStream` (webhdfs.js:626-686).

`endpointUrl` abstracts the URL built by `_getOperationEndpoint` for the
OPEN operation; the request parameters are a GET to that URL.  The code
registers `req.on('complete', → emit 'finish')` unconditionally, then a
`response` handler.

First GET transport error: the request stream itself emits `error`
(the code installs no handler for it, the consumer's listener receives
it); `complete` never fires, so no `finish` follows.

First response remote-error (webhdfs.js:650-655): all `data` listeners
on `req` — including the consumer's — are removed before any chunk is
dispatched, and a handler is installed that emits one `error` per chunk,
parsed from that chunk alone; connection completion then emits `finish`.

First response redirect-class (webhdfs.js:656-679): a second GET is
issued with the *same* `params` — the original endpoint URL; the
`location` header is not consulted.  The first response's own chunks
still reach the consumer's intact `data` listeners, and the first
request's completion emits `finish`.  The second request's chunks are
relayed one-for-one to the consumer (`req.emit('data', chunk)`) and its
completion emits another `finish`; if the second response is
remote-error, the relay listener is removed before its chunks arrive and
each chunk becomes an `error` event instead.  A transport error on the
second request is emitted on the `download` stream, which has no
`error` listener, so nothing reaches the consumer.

Any other first response: chunks are relayed, completion emits `finish`. -/
def createReadStream (endpointUrl : String) (script : ReadScript) : ReadOutcome :=
  match script.first with
  | GetResult.transportErr msg =>
      { events := [Event.error (some msg)], secondRequests := [] }
  | GetResult.stream res cs =>
      if _isError res then
        { events := perChunkErrors cs ++ [Event.finish none], secondRequests := [] }
      else if _isRedirect res then
        match script.second with
        | GetResult.transportErr _ =>
            { events := relayData cs ++ [Event.finish none],
              secondRequests := [{ url := endpointUrl, method := "GET" }] }
        | GetResult.stream res2 cs2 =>
            { events :=
                (relayData cs ++ [Event.finish none]) ++
                  (if _isError res2 then perChunkErrors cs2 ++ [Event.finish none]
                   else relayData cs2 ++ [Event.finish none]),
              secondRequests := [{ url := endpointUrl, method := "GET" }] }
      else
        { events := relayData cs ++ [Event.finish none], secondRequests := [] }

/-! ### Metadata path: `_sendRequest`, `stat`, `exists`, `concat` -/

/-- A JavaScript argument in a path position: a string, or any non-string
value. -/
inductive JsArg where
  | strArg (s : String) : JsArg
  | otherArg : JsArg
deriving DecidableEq, Repr

/-- The path validation used throughout: `!path || typeof path !== 'string'`
throws.  A path is accepted exactly when it is a truthy (non-empty)
string. -/
def pathValid : JsArg → Bool
  | JsArg.strArg s => !(s == "")
  | JsArg.otherArg => false

/-- A JavaScript argument in the `sources` position of `concat`: a
string, an array of strings, or any other value (with its truthiness). -/
inductive SourcesArg where
  | strArg (s : String) : SourcesArg
  | arrArg (xs : List String) : SourcesArg
  | otherArg (truthy : Bool) : SourcesArg
deriving DecidableEq, Repr

/-- Truthiness of a `sources` value: the empty string is falsy, arrays
are always truthy. -/
def sourcesTruthy : SourcesArg → Bool
  | SourcesArg.strArg s => !(s == "")
  | SourcesArg.arrArg _ => true
  | SourcesArg.otherArg t => t

/-- `_.isString(sources)`. -/
def sourcesIsString : SourcesArg → Bool
  | SourcesArg.strArg _ => true
  | _ => false

/-- `_.isArray(sources)`. -/
def sourcesIsArray : SourcesArg → Bool
  | SourcesArg.arrArg _ => true
  | _ => false

/-- The `sources` query parameter the CONCAT request would carry:
`_.isArray(sources) ? _.join(sources, ',') : sources` (webhdfs.js:783). -/
def sourcesParam : SourcesArg → String
  | SourcesArg.strArg s => s
  | SourcesArg.arrArg xs => String.intercalate "," xs
  | SourcesArg.otherArg _ => ""

/-- Embedding of `concat`'s validation and request construction
(webhdfs.js:772-788).  The path check throws first; then the guard
`!sources || !_.isString(sources) || !_.isArray(sources)` throws; only
past both guards is the CONCAT request issued, with the joined
`sources` parameter. -/
def concat (path : JsArg) (sources : SourcesArg) : Except String String :=
  if !(pathValid path) then Except.error "path must be a string"
  else if !(sourcesTruthy sources) || !(sourcesIsString sources)
      || !(sourcesIsArray sources) then
    Except.error "sources must be a string or an array of string"
  else Except.ok (sourcesParam sources)

/-! ### Helper lemmas -/

/-- A redirect-class response has status 301 or 307. -/
theorem redirect_statusCode {r : Response} (h : _isRedirect r = true) :
    r.statusCode = 301 ∨ r.statusCode = 307 := by
  have h' := ((Bool.and_eq_true _ _).mp h).1
  rcases (Bool.or_eq_true _ _).mp h' with h2 | h2
  · exact Or.inl (beq_iff_eq.mp h2)
  · exact Or.inr (beq_iff_eq.mp h2)

/-- A success-class response has status 200 or 201. -/
theorem success_statusCode {r : Response} (h : _isSuccess r = true) :
    r.statusCode = 200 ∨ r.statusCode = 201 := by
  rcases (Bool.or_eq_true _ _).mp h with h2 | h2
  · exact Or.inl (beq_iff_eq.mp h2)
  · exact Or.inr (beq_iff_eq.mp h2)

/-- The redirect and remote-error status sets are disjoint. -/
theorem redirect_not_error {r : Response} (h : _isRedirect r = true) :
    _isError r = false := by
  rcases redirect_statusCode h with hc | hc <;> simp [_isError, hc]

/-- The success and remote-error status sets are disjoint. -/
theorem success_not_error {r : Response} (h : _isSuccess r = true) :
    _isError r = false := by
  rcases success_statusCode h with hc | hc <;> simp [_isError, hc]

/-- A remote-error status is never redirect-class. -/
theorem error_not_redirect {r : Response} (h : _isError r = true) :
    _isRedirect r = false := by
  simp only [_isError, Bool.or_eq_true, beq_iff_eq] at h
  simp only [_isRedirect, Bool.and_eq_false_iff, Bool.or_eq_false_iff,
    beq_eq_false_iff_ne]
  left
  constructor <;> omega

theorem noneData_append (xs ys : List Event) :
    noneData (xs ++ ys) = (noneData xs && noneData ys) := by
  simp [noneData, List.all_append]

theorem noneData_perChunkErrors (cs : List Chunk) :
    noneData (perChunkErrors cs) = true := by
  induction cs with
  | nil => rfl
  | cons c t ih => simp [perChunkErrors, noneData, isDataEvt]

/-- A trace without `data` events trivially has none after an error. -/
theorem noDataAfterError_of_noneData {l : List Event} (h : noneData l = true) :
    noDataAfterError l = true := by
  induction l with
  | nil => rfl
  | cons e rest ih =>
      rw [noneData, List.all_cons, Bool.and_eq_true] at h
      by_cases he : isErrorEvt e = true
      · simpa [noDataAfterError, he, noneData] using h.2
      · have hr : noDataAfterError rest = true := ih h.2
        simp [noDataAfterError, he, hr]

theorem noDataAfterError_perChunk (cs : List Chunk) :
    noDataAfterError (perChunkErrors cs ++ [Event.finish none]) = true := by
  cases cs with
  | nil => rfl
  | cons c t =>
      simp [perChunkErrors, noDataAfterError, isErrorEvt, noneData_append,
        noneData_perChunkErrors, noneData, isDataEvt]

theorem noDataAfterError_relay_append (cs : List Chunk) (rest : List Event) :
    noDataAfterError (relayData cs ++ rest) = noDataAfterError rest := by
  induction cs with
  | nil => rfl
  | cons c t ih => simpa [relayData, noDataAfterError, isErrorEvt] using ih

theorem dataEvents_append (xs ys : List Event) :
    dataEvents (xs ++ ys) = dataEvents xs ++ dataEvents ys := by
  simp [dataEvents, List.filterMap_append]

theorem dataEvents_relay (cs : List Chunk) : dataEvents (relayData cs) = cs := by
  induction cs with
  | nil => rfl
  | cons c t ih => simpa [relayData, dataEvents, List.filterMap_cons] using ih

theorem dataEvents_perChunk (cs : List Chunk) :
    dataEvents (perChunkErrors cs) = [] := by
  induction cs with
  | nil => rfl
  | cons c t ih => simp [perChunkErrors, dataEvents, List.filterMap_cons]

theorem errorEvents_append (xs ys : List Event) :
    errorEvents (xs ++ ys) = errorEvents xs ++ errorEvents ys := by
  simp [errorEvents, List.filterMap_append]

theorem errorEvents_relay (cs : List Chunk) : errorEvents (relayData cs) = [] := by
  induction cs with
  | nil => rfl
  | cons c t ih => simp [relayData, errorEvents, List.filterMap_cons]

theorem dataEvents_finishCons (p : Option String) (l : List Event) :
    dataEvents (Event.finish p :: l) = dataEvents l := by
  simp [dataEvents, List.filterMap_cons]

theorem errorEvents_finishCons (p : Option String) (l : List Event) :
    errorEvents (Event.finish p :: l) = errorEvents l := by
  simp [errorEvents, List.filterMap_cons]

theorem dataEvents_nil : dataEvents [] = [] := rfl

theorem errorEvents_nil : errorEvents [] = [] := rfl

theorem errorEvents_perChunk (cs : List Chunk) :
    errorEvents (perChunkErrors cs) = cs.map chunkErrMsg := by
  induction cs with
  | nil => rfl
  | cons c t ih => simpa [perChunkErrors, errorEvents, List.filterMap_cons] using ih

/-- Upload sessions never emit a `data` event at all. -/
theorem write_events_noneData (u : String) (append : Bool) (ws : WriteScript) :
    noneData (createWriteStream u append ws).events = true := by
  rcases ws with ⟨first, second⟩
  cases first with
  | transportErr m => rfl
  | resp r b =>
      by_cases h1 : _isRedirect r
      · cases second with
        | transportErr m => simp [createWriteStream, h1, emitError, noneData, isDataEvt]
        | resp r2 b2 =>
            by_cases h2 : _isError r2
            · simp [createWriteStream, h1, h2, emitError, noneData, isDataEvt]
            · cases hl : r2.location <;>
                simp [createWriteStream, h1, h2, hl, noneData, isDataEvt]
      · by_cases h2 : _isError r <;>
          simp [createWriteStream, h1, h2, emitError, noneData, isDataEvt]

/-- Download sessions never emit a `data` event after an `error` event. -/
theorem read_events_noDataAfterError (e : String) (rs : ReadScript) :
    noDataAfterError (createReadStream e rs).events = true := by
  rcases rs with ⟨first, second⟩
  cases first with
  | transportErr m => rfl
  | stream r cs =>
      by_cases h1 : _isError r
      · simpa [createReadStream, h1] using noDataAfterError_perChunk cs
      · by_cases h2 : _isRedirect r
        · cases second with
          | transportErr m =>
              simp only [createReadStream, h1, h2, if_false, if_true,
                Bool.false_eq_true, noDataAfterError_relay_append]
              rfl
          | stream r2 cs2 =>
              simp only [createReadStream, h1, h2, if_false, if_true,
                Bool.false_eq_true, List.append_assoc, List.cons_append,
                List.nil_append, noDataAfterError_relay_append]
              by_cases h3 : _isError r2
              · simpa [noDataAfterError, isErrorEvt, h3] using
                  noDataAfterError_perChunk cs2
              · simp [noDataAfterError, isErrorEvt, h3,
                  noDataAfterError_relay_append]
        · simp only [createReadStream, h1, h2, if_false, Bool.false_eq_true,
            noDataAfterError_relay_append]
          rfl

/-! ### Claim theorems -/

/-- C6: the classifier predicates partition status codes exactly as
specified — `_isSuccess` holds iff the status is 200 or 201, `_isRedirect`
holds iff the status is 301 or 307 and a `Location` header is present,
`_isError` holds iff the status is one of 400, 401, 402, 403, 404, 500,
and any status outside these sets falls into none of the three classes. -/
theorem c6_status_classes (res other : Response)
    (h : other.statusCode ∉
      ([200, 201, 301, 307, 400, 401, 402, 403, 404, 500] : List Nat)) :
    (_isSuccess res = true ↔ res.statusCode = 200 ∨ res.statusCode = 201) ∧
    (_isRedirect res = true ↔
      (res.statusCode = 301 ∨ res.statusCode = 307) ∧ res.location.isSome = true) ∧
    (_isError res = true ↔
      res.statusCode ∈ ([400, 401, 402, 403, 404, 500] : List Nat)) ∧
    (_isSuccess other = false ∧ _isRedirect other = false ∧ _isError other = false) := by
  simp only [List.mem_cons, List.not_mem_nil, or_false] at h
  push_neg at h
  refine ⟨?_, ?_, ?_, ?_, ?_, ?_⟩
  · simp [_isSuccess, Bool.or_eq_true, beq_iff_eq]
  · simp [_isRedirect, Bool.and_eq_true, Bool.or_eq_true, beq_iff_eq]
  · simp only [_isError, Bool.or_eq_true, beq_iff_eq, List.mem_cons,
      List.not_mem_nil, or_false]
    tauto
  · simp only [_isSuccess, Bool.or_eq_false_iff, beq_eq_false_iff_ne]
    exact ⟨h.1, h.2.1⟩
  · simp only [_isRedirect, Bool.and_eq_false_iff, Bool.or_eq_false_iff,
      beq_eq_false_iff_ne]
    exact Or.inl ⟨h.2.2.1, h.2.2.2.1⟩
  · simp only [_isError, Bool.or_eq_false_iff, beq_eq_false_iff_ne]
    exact ⟨⟨⟨⟨⟨h.2.2.2.2.1, h.2.2.2.2.2.1⟩, h.2.2.2.2.2.2.1⟩,
      h.2.2.2.2.2.2.2.1⟩, h.2.2.2.2.2.2.2.2.1⟩, h.2.2.2.2.2.2.2.2.2⟩

/-- Witness for C6 at the concrete responses 301-with-Location,
404, and 204. -/
theorem c6_witness :
    _isError { statusCode := 404, location := (none : Option String) } = true ∧
    _isSuccess { statusCode := 204, location := (none : Option String) } = false ∧
    _isRedirect { statusCode := 204, location := (none : Option String) } = false ∧
    _isError { statusCode := 204, location := (none : Option String) } = false := by
  have h := c6_status_classes { statusCode := 404, location := none }
    { statusCode := 204, location := none } (by decide)
  exact ⟨h.2.2.1.mpr (by decide), h.2.2.2.1, h.2.2.2.2.1, h.2.2.2.2.2⟩

/-- Whether the decoded body is truthy and has an own `RemoteException`
property (of any value). -/
def hasEnvelopeProp (body : RespBody) : Bool :=
  match decodeBody body with
  | some (JsVal.objVal (some _) _) => true
  | _ => false

/-- The value of the body's own `RemoteException` property, when the
decoded body is truthy and carries one. -/
def envelopeVal (body : RespBody) : Option RemoteExc :=
  match decodeBody body with
  | some (JsVal.objVal e _) => e
  | _ => none

/-- C7 counterexample: for a body whose own `RemoteException` property is
present but falsy (e.g. the decoded form of the string
`"RemoteException": null` inside an object), non-strict `_parseError`
returns `null`, not the `"Unknown error"` Error the claim requires for
every envelope-less body when strict is false. -/
theorem c7_counterexample :
    _parseError
        (RespBody.objBody (JsVal.objVal (some RemoteExc.falsyExc) none)) false
      = none ∧
    ¬ _parseError
        (RespBody.objBody (JsVal.objVal (some RemoteExc.falsyExc) none)) false
      = some "Unknown error" :=
  ⟨rfl, by decide⟩

/-- C7 (amended): `_parseError` (a string body being JSON-parsed first)
returns an Error carrying the envelope's message when the body's own
`RemoteException` property holds a truthy value with a `message`
(regardless of strict); an Error with empty message when that value is
truthy but has no `message` field; null — regardless of strict — when
the property is present but its value is falsy; and, when no
`RemoteException` property is present (including when the string body is
not valid JSON), an Error with message "Unknown error" if strict is
false and null if strict is true. -/
theorem c7_parse_error_cases (body : RespBody) (strict : Bool) :
    (∀ m, envelopeVal body = some (RemoteExc.excWithMsg m) →
      _parseError body strict = some m) ∧
    (envelopeVal body = some RemoteExc.falsyExc →
      _parseError body strict = none) ∧
    (envelopeVal body = some RemoteExc.excNoMsg →
      _parseError body strict = some "") ∧
    (hasEnvelopeProp body = false →
      _parseError body strict = if strict then none else some "Unknown error") := by
  unfold _parseError envelopeVal hasEnvelopeProp
  cases hd : decodeBody body with
  | none =>
      exact ⟨fun m hm => (nomatch hm), fun hm => (nomatch hm),
        fun hm => (nomatch hm), fun _ => rfl⟩
  | some v =>
      cases v with
      | falsyVal =>
          exact ⟨fun m hm => (nomatch hm), fun hm => (nomatch hm),
            fun hm => (nomatch hm), fun _ => rfl⟩
      | objVal re fs =>
          cases re with
          | none =>
              exact ⟨fun m hm => (nomatch hm), fun hm => (nomatch hm),
                fun hm => (nomatch hm), fun _ => rfl⟩
          | some exc =>
              cases exc with
              | falsyExc =>
                  exact ⟨fun m hm => (nomatch hm), fun _ => rfl,
                    fun hm => (nomatch hm), fun h => (nomatch h)⟩
              | excWithMsg m0 =>
                  refine ⟨fun m hm => ?_, fun hm => (nomatch hm),
                    fun hm => (nomatch hm), fun h => (nomatch h)⟩
                  injection hm with h1
                  injection h1 with h2
                  rw [h2]
              | excNoMsg =>
                  exact ⟨fun m hm => (nomatch hm), fun hm => (nomatch hm),
                    fun _ => rfl, fun h => (nomatch h)⟩

/-- Witness for C7 at one body of each kind: a truthy envelope with a
message (strict mode), a present-but-falsy envelope (non-strict), and an
unparseable string body in both modes. -/
theorem c7_witness :
    _parseError
        (RespBody.objBody
          (JsVal.objVal (some (RemoteExc.excWithMsg "File not found")) none))
        true
      = some "File not found" ∧
    _parseError
        (RespBody.objBody (JsVal.objVal (some RemoteExc.falsyExc) none)) false
      = none ∧
    _parseError (RespBody.strBody none) false = some "Unknown error" ∧
    _parseError (RespBody.strBody none) true = none :=
  ⟨(c7_parse_error_cases
      (RespBody.objBody
        (JsVal.objVal (some (RemoteExc.excWithMsg "File not found")) none))
      true).1 "File not found" rfl,
   (c7_parse_error_cases
      (RespBody.objBody (JsVal.objVal (some RemoteExc.falsyExc) none))
      false).2.1 rfl,
   (c7_parse_error_cases (RespBody.strBody none) false).2.2.2 rfl,
   (c7_parse_error_cases (RespBody.strBody none) true).2.2.2 rfl⟩

/-- The `concat` guard `!_.isString(sources) || !_.isArray(sources)` is
true of every value: nothing is both a string and an array. -/
theorem concat_guard_true (sources : SourcesArg) :
    (!(sourcesTruthy sources) || !(sourcesIsString sources)
      || !(sourcesIsArray sources)) = true := by
  cases sources <;> simp [sourcesTruthy, sourcesIsString, sourcesIsArray]

/-- C9: the implemented `concat` validation rejects every `sources`
value — for any path and any sources argument, `concat` throws a
validation error, so no CONCAT request is ever issued.  This contradicts
the documented contract (`@param {String|String[]} sources` and the
thrown message itself), which promises that a single string or an array
of strings is accepted. -/
theorem c9_concat_never_issues (path : JsArg) (sources : SourcesArg) :
    ∃ e, concat path sources = Except.error e := by
  unfold concat
  cases hp : pathValid path
  · exact ⟨"path must be a string", by simp [hp]⟩
  · exact ⟨"sources must be a string or an array of string",
      by simp [hp, concat_guard_true]⟩

/-- C10: an upload session whose first response is neither redirect-class
(`_isRedirect`) nor a remote-error status emits no event at all — neither
`error` nor `finish` — and issues no second request, so the session never
reaches a terminal state. -/
theorem c10_upload_no_event (u : String) (append : Bool) (r : Response)
    (b : RespBody) (sec : SecondResult)
    (h1 : _isRedirect r = false) (h2 : _isError r = false) :
    createWriteStream u append { first := FirstResult.resp r b, second := sec }
      = { events := [], secondRequests := [] } := by
  simp [createWriteStream, h1, h2]

/-- Witness for C10 at a 200 response with no `Location` header. -/
theorem c10_witness :
    createWriteStream "http://nn/create" false
        { first := FirstResult.resp { statusCode := 200, location := none }
            RespBody.noBody,
          second := SecondResult.transportErr "unused" }
      = { events := [], secondRequests := [] } :=
  c10_upload_no_event "http://nn/create" false _ _ _ (by decide) (by decide)

/-- C1 counterexample: an upload session whose first response is a 404
with a RemoteException envelope emits `error` and then immediately a
subsequent `finish` (the `emitError` helper emits both), so it is false
that no `finish` event follows a terminal `error` event. -/
theorem c1_counterexample :
    (createWriteStream "http://nn/create" false
        { first := FirstResult.resp { statusCode := 404, location := none }
            (RespBody.objBody (JsVal.objVal (some (RemoteExc.excWithMsg "File not found")) none)),
          second := SecondResult.transportErr "unused" }).events
      = [Event.error (some "File not found"), Event.finish none] ∧
    noDataOrFinishAfterError
      (createWriteStream "http://nn/create" false
        { first := FirstResult.resp { statusCode := 404, location := none }
            (RespBody.objBody (JsVal.objVal (some (RemoteExc.excWithMsg "File not found")) none)),
          second := SecondResult.transportErr "unused" }).events
      = false :=
  ⟨rfl, rfl⟩

/-- C1 (amended): in every upload and download session, once a terminal
`error` event has been emitted, no subsequent `data` event is emitted;
a single `finish` event does, however, still follow an emitted error
(uploads emit it directly from the error helper, downloads emit it when
the underlying connection completes). -/
theorem c1_no_data_after_error (u e : String) (append : Bool)
    (ws : WriteScript) (rs : ReadScript) :
    noDataAfterError (createWriteStream u append ws).events = true ∧
    noDataAfterError (createReadStream e rs).events = true :=
  ⟨noDataAfterError_of_noneData (write_events_noneData u append ws),
   read_events_noDataAfterError e rs⟩

/-- C2 counterexample: for a download whose OPEN response is a 307 with
`Location: http://datanode/next`, the second GET is issued to the
original endpoint URL, not to the Location target. -/
theorem c2_counterexample :
    (createReadStream "http://namenode/open"
        { first := GetResult.stream
            { statusCode := 307, location := some "http://datanode/next" } [],
          second := GetResult.stream { statusCode := 200, location := none }
            [] }).secondRequests
      = [{ url := "http://namenode/open", method := "GET" }] ∧
    ("http://namenode/open" : String) ≠ "http://datanode/next" :=
  ⟨rfl, by decide⟩

/-- C2 (amended): for a redirect-class first OPEN response, exactly one
second GET is issued, with the same request parameters — i.e. to the
original endpoint URL; the Location header is not used to re-target it
(redirect following is left to the transport).  Every data chunk of a
non-remote-error second response is relayed to the session's output as
its own `data` event as it arrives (after any chunks of the first
response's own body), never buffered in full. -/
theorem c2_second_request_and_relay (e : String) (r1 : Response)
    (cs : List Chunk) (r2 : Response) (cs2 : List Chunk)
    (h1 : _isRedirect r1 = true) (h2 : _isError r2 = false) :
    (createReadStream e
        { first := GetResult.stream r1 cs,
          second := GetResult.stream r2 cs2 }).secondRequests
      = [{ url := e, method := "GET" }] ∧
    dataEvents (createReadStream e
        { first := GetResult.stream r1 cs,
          second := GetResult.stream r2 cs2 }).events
      = cs ++ cs2 := by
  have hne : _isError r1 = false := redirect_not_error h1
  refine ⟨by simp [createReadStream, hne, h1], ?_⟩
  simp [createReadStream, hne, h1, h2, dataEvents_append, dataEvents_relay,
    dataEvents_perChunk, dataEvents_finishCons, dataEvents_nil]

/-- Witness for C2: a 307 with a Location header followed by a 200 whose
body arrives as one chunk. -/
theorem c2_witness :
    (createReadStream "http://nn/open"
        { first := GetResult.stream
            { statusCode := 307, location := some "http://dn/data" } [],
          second := GetResult.stream { statusCode := 200, location := none }
            [{ parsed := none }] }).secondRequests
      = [{ url := "http://nn/open", method := "GET" }] ∧
    dataEvents (createReadStream "http://nn/open"
        { first := GetResult.stream
            { statusCode := 307, location := some "http://dn/data" } [],
          second := GetResult.stream { statusCode := 200, location := none }
            [{ parsed := none }] }).events
      = [{ parsed := none }] :=
  c2_second_request_and_relay "http://nn/open" _ _ _ _ (by decide) (by decide)

/-- C3 counterexample: a download whose OPEN response is a 404 and whose
error body arrives in two chunks (neither of which is valid JSON on its
own) yields two `error` events, each parsed from its own chunk — not the
single `error` matching the accumulated envelope that the claim
requires. -/
theorem c3_counterexample :
    errorEvents
      (createReadStream "http://nn/open"
        { first := GetResult.stream { statusCode := 404, location := none }
            [{ parsed := none }, { parsed := none }],
          second := GetResult.transportErr "unused" }).events
      = [some "Unknown error", some "Unknown error"] ∧
    ¬ (errorEvents
        (createReadStream "http://nn/open"
          { first := GetResult.stream { statusCode := 404, location := none }
              [{ parsed := none }, { parsed := none }],
            second := GetResult.transportErr "unused" }).events).length = 1 :=
  ⟨rfl, by decide⟩

/-- C3 (amended): a download response with a remote-error status delivers
zero `data` events to the consumer; each incoming body chunk is parsed
independently (non-strict) as an error body and yields its own `error`
event, so the emitted error messages are exactly the per-chunk parses —
in particular, when the error body arrives as a single chunk containing
the RemoteException envelope, exactly one `error` is emitted and its
message matches the envelope.  This holds both when the error response
is the first response and when it is the second (post-redirect) response
(the preceding redirect response carrying no body). -/
theorem c3_error_download_events (e1 e2 : String)
    (r1 : Response) (cs : List Chunk) (sec : GetResult)
    (ra rb : Response) (cs2 : List Chunk)
    (h1 : _isError r1 = true) (h2 : _isRedirect ra = true)
    (h3 : _isError rb = true) :
    (dataEvents (createReadStream e1
        { first := GetResult.stream r1 cs, second := sec }).events = [] ∧
     errorEvents (createReadStream e1
        { first := GetResult.stream r1 cs, second := sec }).events
       = cs.map chunkErrMsg) ∧
    (dataEvents (createReadStream e2
        { first := GetResult.stream ra [],
          second := GetResult.stream rb cs2 }).events = [] ∧
     errorEvents (createReadStream e2
        { first := GetResult.stream ra [],
          second := GetResult.stream rb cs2 }).events
       = cs2.map chunkErrMsg) := by
  have hna : _isError ra = false := redirect_not_error h2
  constructor
  · constructor
    · simp [createReadStream, h1, dataEvents_append, dataEvents_perChunk,
        dataEvents_finishCons, dataEvents_nil]
    · simp [createReadStream, h1, errorEvents_append, errorEvents_perChunk,
        errorEvents_finishCons, errorEvents_nil]
  · constructor
    · simp [createReadStream, hna, h2, h3, dataEvents_append, dataEvents_perChunk,
        dataEvents_relay, dataEvents_finishCons, dataEvents_nil]
    · simp [createReadStream, hna, h2, h3, errorEvents_append, errorEvents_perChunk,
        errorEvents_relay, errorEvents_finishCons, errorEvents_nil]

/-- Witness for C3: a 404 whose envelope body arrives as a single chunk
(first-response case) and a 307-then-500 whose error body arrives as a
single non-JSON chunk (second-response case). -/
theorem c3_witness :
    (dataEvents (createReadStream "http://nn/open"
        { first := GetResult.stream { statusCode := 404, location := none }
            [{ parsed := some (JsVal.objVal (some (RemoteExc.excWithMsg "File not found")) none) }],
          second := GetResult.transportErr "unused" }).events = [] ∧
     errorEvents (createReadStream "http://nn/open"
        { first := GetResult.stream { statusCode := 404, location := none }
            [{ parsed := some (JsVal.objVal (some (RemoteExc.excWithMsg "File not found")) none) }],
          second := GetResult.transportErr "unused" }).events
       = [some "File not found"]) ∧
    (dataEvents (createReadStream "http://nn/open2"
        { first := GetResult.stream
            { statusCode := 307, location := some "http://dn/data" } [],
          second := GetResult.stream { statusCode := 500, location := none }
            [{ parsed := none }] }).events = [] ∧
     errorEvents (createReadStream "http://nn/open2"
        { first := GetResult.stream
            { statusCode := 307, location := some "http://dn/data" } [],
          second := GetResult.stream { statusCode := 500, location := none }
            [{ parsed := none }] }).events
       = [some "Unknown error"]) :=
  c3_error_download_events "http://nn/open" "http://nn/open2" _ _ _ _ _ _
    (by decide) (by decide) (by decide)

/-- C4: for an upload session whose second (post-redirect) response is a
success status, the session emits exactly one `finish` event, carrying
the second response's `Location` header value when that header is
present and no payload otherwise. -/
theorem c4_upload_finish_payload (u : String) (append : Bool)
    (r1 : Response) (b1 : RespBody) (r2 : Response) (b2 : RespBody)
    (h1 : _isRedirect r1 = true) (h2 : _isSuccess r2 = true) :
    (createWriteStream u append
        { first := FirstResult.resp r1 b1,
          second := SecondResult.resp r2 b2 }).events
      = [Event.finish r2.location] := by
  have he : _isError r2 = false := success_not_error h2
  cases hl : r2.location with
  | none => simp [createWriteStream, h1, he, hl]
  | some loc => simp [createWriteStream, h1, he, hl]

/-- Witness for C4: a 307-with-Location first response and a 201 second
response that carries a further Location header. -/
theorem c4_witness :
    (createWriteStream "http://nn/create" false
        { first := FirstResult.resp
            { statusCode := 307, location := some "http://dn/write" }
            RespBody.noBody,
          second := SecondResult.resp
            { statusCode := 201, location := some "http://dn/next" }
            RespBody.noBody }).events
      = [Event.finish (some "http://dn/next")] :=
  c4_upload_finish_payload "http://nn/create" false _ _ _ _
    (by decide) (by decide)

/-- C5: for every upload and download session, the second (data) request
is issued iff the first response is redirect-class, and then exactly
once; when the first outcome is a transport failure or a remote-error
status, the session fails with that error (for downloads with the
per-chunk parses of the error body) and no second request is issued. -/
theorem c5_second_request_iff_redirect
    (u e : String) (append : Bool)
    (ws : WriteScript) (rs : ReadScript)
    (msgW : String) (sW : SecondResult)
    (rW : Response) (bW : RespBody) (sW2 : SecondResult)
    (msgR : String) (sR : GetResult)
    (rR : Response) (csR : List Chunk) (sR2 : GetResult)
    (hW : _isError rW = true) (hR : _isError rR = true) :
    ((createWriteStream u append ws).secondRequests.length
        = if ws.firstRedirect then 1 else 0) ∧
    ((createReadStream e rs).secondRequests.length
        = if rs.firstRedirect then 1 else 0) ∧
    ((createWriteStream u append
        { first := FirstResult.transportErr msgW, second := sW }).events
        = [Event.error (some msgW), Event.finish none] ∧
     (createWriteStream u append
        { first := FirstResult.transportErr msgW, second := sW }).secondRequests
        = []) ∧
    ((createWriteStream u append
        { first := FirstResult.resp rW bW, second := sW2 }).events
        = [Event.error (_parseError bW false), Event.finish none] ∧
     (createWriteStream u append
        { first := FirstResult.resp rW bW, second := sW2 }).secondRequests
        = []) ∧
    ((createReadStream e
        { first := GetResult.transportErr msgR, second := sR }).events
        = [Event.error (some msgR)] ∧
     (createReadStream e
        { first := GetResult.transportErr msgR, second := sR }).secondRequests
        = []) ∧
    ((createReadStream e
        { first := GetResult.stream rR csR, second := sR2 }).secondRequests
        = [] ∧
     errorEvents (createReadStream e
        { first := GetResult.stream rR csR, second := sR2 }).events
        = csR.map chunkErrMsg) := by
  refine ⟨?_, ?_, ?_, ?_, ?_, ?_⟩
  · rcases ws with ⟨first, second⟩
    cases first with
    | transportErr m => rfl
    | resp r b =>
        by_cases h : _isRedirect r
        · simp [createWriteStream, WriteScript.firstRedirect, h]
        · by_cases h2 : _isError r <;>
            simp [createWriteStream, WriteScript.firstRedirect, h, h2]
  · rcases rs with ⟨first, second⟩
    cases first with
    | transportErr m => rfl
    | stream r cs =>
        by_cases h : _isError r
        · simp [createReadStream, ReadScript.firstRedirect, h,
            error_not_redirect h]
        · by_cases h2 : _isRedirect r
          · cases second <;>
              simp [createReadStream, ReadScript.firstRedirect, h, h2]
          · simp [createReadStream, ReadScript.firstRedirect, h, h2]
  · exact ⟨rfl, rfl⟩
  · have hnr : _isRedirect rW = false := error_not_redirect hW
    exact ⟨by simp [createWriteStream, hnr, hW, emitError],
      by simp [createWriteStream, hnr, hW]⟩
  · exact ⟨rfl, rfl⟩
  · refine ⟨by simp [createReadStream, hR], ?_⟩
    simp [createReadStream, hR, errorEvents_append, errorEvents_perChunk,
      errorEvents_finishCons, errorEvents_nil]

/-- Witness for C5: a redirected upload, a redirected download, both
failure modes of the first upload request, and both failure modes of the
first download request, at concrete inputs. -/
theorem c5_witness :
    (createWriteStream "http://nn/create" false
        { first := FirstResult.resp
            { statusCode := 307, location := some "http://dn/write" }
            RespBody.noBody,
          second := SecondResult.transportErr "boom" }).secondRequests.length
      = 1 ∧
    (createReadStream "http://nn/open"
        { first := GetResult.transportErr "refused",
          second := GetResult.transportErr "unused" }).events
      = [Event.error (some "refused")] ∧
    (createWriteStream "http://nn/create" false
        { first := FirstResult.resp { statusCode := 403, location := none }
            (RespBody.objBody (JsVal.objVal (some (RemoteExc.excWithMsg "denied")) none)),
          second := SecondResult.transportErr "unused" }).events
      = [Event.error (some "denied"), Event.finish none] ∧
    (createReadStream "http://nn/open"
        { first := GetResult.stream { statusCode := 500, location := none }
            [{ parsed := none }],
          second := GetResult.transportErr "unused" }).secondRequests
      = [] := by
  have h := c5_second_request_iff_redirect "http://nn/create" "http://nn/open"
    false
    { first := FirstResult.resp
        { statusCode := 307, location := some "http://dn/write" }
        RespBody.noBody,
      second := SecondResult.transportErr "boom" }
    { first := GetResult.transportErr "refused",
      second := GetResult.transportErr "unused" }
    "tw" (SecondResult.transportErr "z")
    { statusCode := 403, location := none }
    (RespBody.objBody (JsVal.objVal (some (RemoteExc.excWithMsg "denied")) none))
    (SecondResult.transportErr "unused")
    "refused" (GetResult.transportErr "unused")
    { statusCode := 500, location := none } [{ parsed := none }]
    (GetResult.transportErr "unused")
    (by decide) (by decide)
  exact ⟨h.1.trans (by decide), h.2.2.2.2.1.1, h.2.2.2.1.1, h.2.2.2.2.2.1⟩

end WebHDFS
